import Mathlib

/-!
Verification of the ideas-backend engagement core.

The definitions below are a shallow embedding of the repository's servers:
* the main Express server embedded in `src/README.txt` (in-memory `ideas`
  array, `likesBy` and `commentsBy` maps, the like/comment helpers and the
  REST routes),
* the `src/server.cjs` variant (per-idea `likes` counter and an SSE
  fan-out without per-subscriber error handling),
* the `src/server.patched.cjs` variant (ideas with embedded `likedBy` /
  `comments`, comment-text validation),
* the `src/server.js` variant (SQLite-backed create with trimmed-title
  validation).

JavaScript objects are modelled as association lists with string keys
(first matching key wins, matching JS property lookup on the objects the
code builds), in-place mutation of an object found in an array is modelled
as replacing the first array entry with the matching id, timestamps are
abstract `Nat`s, and the randomly generated ids (`genId`, `nanoid`) are
passed in as explicit `freshId` arguments.
-/

namespace IdeasBackend

/-! ### Association-list model of plain JS objects used as maps -/

/-- Property lookup on a JS object modelled as an association list:
the first entry with the key wins, `none` when the key is absent. -/
def lookupEntry {α : Type} : List (String × α) → String → Option α
  | [], _ => none
  | (k', v) :: rest, k => if k' = k then some v else lookupEntry rest k

/-- Property assignment `obj[k] = v` on a JS object modelled as an
association list: overwrite the first entry with the key, append when the
key is absent. -/
def setEntry {α : Type} : List (String × α) → String → α → List (String × α)
  | [], k, v => [(k, v)]
  | (k', v') :: rest, k, v =>
      if k' = k then (k, v) :: rest else (k', v') :: setEntry rest k v

/-- JavaScript `String.prototype.trim()`: strip leading and trailing
whitespace.  (Defined by structural recursion on the character list so
that it evaluates inside the kernel.) -/
def jsTrim (s : String) : String :=
  ⟨(((s.data.dropWhile Char.isWhitespace).reverse).dropWhile Char.isWhitespace).reverse⟩

/-! ### Data model of the `src/README.txt` server -/

/-- One comment row, from the README server's `addComment`:
`cm = \x7b id: genId('cm_'), userId, text, createdAt: nowISO() \x7d`. -/
structure Comment where
  id : String
  userId : String
  text : String
  createdAt : Nat
deriving DecidableEq, Repr

/-- One idea row, per the README server's comment
`ideas: \x7bid, title, symbol, levelText, take, imageUrl, imageData, type,
createdAt, updatedAt, likeCount, commentCount\x7d` (plus the `summary`
field the create route stores). `imageUrl` is `Option` because the route
stores JS `null` for a null payload. -/
structure Idea where
  id : String
  title : String
  symbol : String
  levelText : String
  take : String
  type : String
  imageUrl : Option String
  imageData : String
  summary : String
  createdAt : Nat
  updatedAt : Nat
  likeCount : Nat
  commentCount : Nat
deriving DecidableEq, Repr

/-- The README server's in-memory stores: `let ideas = []`,
`likesBy[ideaId] = \x7b [whoKey]: true/false \x7d`,
`commentsBy[ideaId] = [ \x7bid, userId, text, createdAt\x7d ]`. -/
structure ServerState where
  ideas : List Idea
  likesBy : List (String × List (String × Bool))
  commentsBy : List (String × List Comment)
deriving DecidableEq, Repr

/-- `getIdea(id)` = `ideas.find(x => String(x.id) === String(id))`. -/
def getIdea (s : ServerState) (ideaId : String) : Option Idea :=
  s.ideas.find? (fun x => x.id == ideaId)

/-- In-place mutation of the first idea in the array whose id matches
(the object returned by `getIdea` is mutated where it sits). -/
def updateFirst (f : Idea → Idea) : List Idea → String → List Idea
  | [], _ => []
  | x :: rest, ideaId =>
      if x.id == ideaId then f x :: rest else x :: updateFirst f rest ideaId

/-- `ideas.splice(i, 1)` at the first index whose id matches, as in
`deleteIdea` (no match leaves the array unchanged). -/
def removeFirstIdea : List Idea → String → List Idea
  | [], _ => []
  | x :: rest, ideaId =>
      if x.id == ideaId then rest else x :: removeFirstIdea rest ideaId

/-- `deleteIdea(id)`: splices the idea out of `ideas`.  Note that the
source touches neither `likesBy` nor `commentsBy`. -/
def deleteIdea (s : ServerState) (ideaId : String) : ServerState :=
  { s with ideas := removeFirstIdea s.ideas ideaId }

/-! ### Likes helpers of the README server -/

/-- `likesBy[ideaId] || \x7b\x7d`. -/
def likesOf (s : ServerState) (ideaId : String) : List (String × Bool) :=
  (lookupEntry s.likesBy ideaId).getD []

/-- `Object.values(map).filter(Boolean).length`. -/
def countTrue (m : List (String × Bool)) : Nat :=
  (m.filter (fun p => p.2)).length

/-- `recalcLikeCount(ideaId)`: recomputes the count of `true` values in
the idea's like map and writes it into the idea's `likeCount` when the
idea exists; returns the count. -/
def recalcLikeCount (s : ServerState) (ideaId : String) : ServerState × Nat :=
  let count := countTrue (likesOf s ideaId)
  ({ s with ideas := updateFirst (fun it => { it with likeCount := count }) s.ideas ideaId },
   count)

/-- `setLike(ideaId, who, value)`: `likesBy[ideaId][who] = !!value` then
`recalcLikeCount(ideaId)`. -/
def setLike (s : ServerState) (ideaId who : String) (value : Bool) : ServerState × Nat :=
  let m := likesOf s ideaId
  recalcLikeCount { s with likesBy := setEntry s.likesBy ideaId (setEntry m who value) } ideaId

/-- `(likesBy[ideaId] && likesBy[ideaId][who]) || false` — the current
liked state of a `(ideaId, who)` pair, absence read as `false`. -/
def likedState (s : ServerState) (ideaId who : String) : Bool :=
  (lookupEntry (likesOf s ideaId) who).getD false

/-- `toggleLikeState(ideaId, who)`: reads the current boolean and sets its
negation. -/
def toggleLikeState (s : ServerState) (ideaId who : String) : ServerState × Nat :=
  setLike s ideaId who (!(likedState s ideaId who))

/-! ### Comments helpers of the README server -/

/-- `listComments(ideaId)` = `commentsBy[ideaId] || []`. -/
def listComments (s : ServerState) (ideaId : String) : List Comment :=
  (lookupEntry s.commentsBy ideaId).getD []

/-- `arr.find`-style lookup of a comment by id. -/
def findComment (arr : List Comment) (commentId : String) : Option Comment :=
  arr.find? (fun c => c.id == commentId)

/-- In-place mutation of the first comment in the array whose id matches. -/
def updateFirstComment (f : Comment → Comment) : List Comment → String → List Comment
  | [], _ => []
  | c :: rest, commentId =>
      if c.id == commentId then f c :: rest else c :: updateFirstComment f rest commentId

/-- `arr.splice(i, 1)` at the first comment index whose id matches. -/
def removeFirstComment : List Comment → String → List Comment
  | [], _ => []
  | c :: rest, commentId =>
      if c.id == commentId then rest else c :: removeFirstComment rest commentId

/-- `addComment(ideaId, text, userId)`: pushes a fresh comment onto
`commentsBy[ideaId]` and refreshes the idea's `commentCount` when the idea
exists.  The source applies no validation to `text`. -/
def addComment (s : ServerState) (ideaId text userId freshId : String) (now : Nat) :
    ServerState × Comment :=
  let cm : Comment := { id := freshId, userId := userId, text := text, createdAt := now }
  let arr := listComments s ideaId ++ [cm]
  let s' := { s with commentsBy := setEntry s.commentsBy ideaId arr }
  ({ s' with ideas := updateFirst (fun it => { it with commentCount := arr.length }) s'.ideas ideaId },
   cm)

/-- `editComment(ideaId, commentId, text)`: rewrites the text of the first
matching comment; returns `false` (without mutating) when the comment is
absent.  The idea's existence is not consulted. -/
def editComment (s : ServerState) (ideaId commentId text : String) : ServerState × Bool :=
  let arr := (lookupEntry s.commentsBy ideaId).getD []
  match findComment arr commentId with
  | none => (s, false)
  | some _ =>
      let arr' := updateFirstComment (fun c => { c with text := text }) arr commentId
      ({ s with commentsBy := setEntry s.commentsBy ideaId arr' }, true)

/-- `deleteCommentById(ideaId, commentId)`: splices the first matching
comment out and refreshes the idea's `commentCount` when the idea exists;
returns `false` when the comment is absent. -/
def deleteCommentById (s : ServerState) (ideaId commentId : String) : ServerState × Bool :=
  let arr := (lookupEntry s.commentsBy ideaId).getD []
  match findComment arr commentId with
  | none => (s, false)
  | some _ =>
      let arr' := removeFirstComment arr commentId
      let s' := { s with commentsBy := setEntry s.commentsBy ideaId arr' }
      ({ s' with ideas := updateFirst (fun it => { it with commentCount := arr'.length }) s'.ideas ideaId },
       true)

/-! ### REST routes of the README server -/

/-- Error responses the routes produce (`res.status(404/400/500)`). -/
inductive ApiErr where
  | notFound (msg : String)
  | badRequest (msg : String)
  | internal (msg : String)
deriving DecidableEq, Repr

/-- Request body of `POST /ideas` (create path), with its JS defaults
already in the field types: every field defaults to the empty string
except `type` which defaults to `'idea'` downstream. -/
structure CreateBody where
  title : String
  symbol : String
  levelText : String
  take : String
  type : String
  imageUrl : Option String
  imageData : String
  summary : String
deriving DecidableEq, Repr

/-- `POST /ideas` create path combined with the `!obj.id` branch of
`saveIdea`: builds the idea with `type: String(type || 'idea')`,
`summary: String(summary || levelText || '')`, `createdAt: nowISO()`,
then `saveIdea` assigns `genId('idea_')`, `updatedAt = now`,
`likeCount = 0`, `commentCount = 0` and pushes it.  No field of the body
is validated. -/
def createIdea (s : ServerState) (b : CreateBody) (freshId : String) (now : Nat) :
    ServerState × Idea :=
  let obj : Idea :=
    { id := freshId
      title := b.title
      symbol := b.symbol
      levelText := b.levelText
      take := b.take
      type := if b.type = "" then "idea" else b.type
      imageUrl := b.imageUrl
      imageData := b.imageData
      summary := if b.summary = "" then b.levelText else b.summary
      createdAt := now
      updatedAt := now
      likeCount := 0
      commentCount := 0 }
  ({ s with ideas := s.ideas ++ [obj] }, obj)

/-- `ideas[i] = obj` at the first index whose id matches `obj.id`. -/
def replaceFirst (obj : Idea) : List Idea → List Idea
  | [] => []
  | x :: rest => if x.id == obj.id then obj :: rest else x :: replaceFirst obj rest

/-- The `obj.id` branch of `saveIdea`: refresh `updatedAt`, then replace
the idea at its index, or push when the id is unknown. -/
def saveIdea (s : ServerState) (obj : Idea) (now : Nat) : ServerState :=
  let obj := { obj with updatedAt := now }
  if s.ideas.any (fun x => x.id == obj.id) then
    { s with ideas := replaceFirst obj s.ideas }
  else
    { s with ideas := s.ideas ++ [obj] }

/-- Request body of `PATCH /ideas/:id`: the route destructures exactly
these eight fields; `none` models an `undefined` field that the spread
leaves out.  `imageUrl` keeps the extra `null` case. -/
structure PatchBody where
  title : Option String
  symbol : Option String
  levelText : Option String
  summary : Option String
  take : Option String
  type : Option String
  imageUrl : Option (Option String)
  imageData : Option String
deriving DecidableEq, Repr

/-- `PATCH /ideas/:id`: 404 when the idea is absent, otherwise spreads the
defined whitelisted fields over the idea, stamps `updatedAt`, and saves. -/
def patchIdea (s : ServerState) (ideaId : String) (b : PatchBody) (now : Nat) :
    Except ApiErr (ServerState × Idea) :=
  match getIdea s ideaId with
  | none => .error (.notFound "Not found")
  | some it =>
      let next : Idea :=
        { it with
          title := b.title.getD it.title
          symbol := b.symbol.getD it.symbol
          levelText := b.levelText.getD it.levelText
          summary := b.summary.getD it.summary
          take := b.take.getD it.take
          type := b.type.getD it.type
          imageUrl := b.imageUrl.getD it.imageUrl
          imageData := b.imageData.getD it.imageData
          updatedAt := now }
      .ok (saveIdea s next now, next)

/-- Patch object of the single-wire `post_edit` op.  The JS spread
`\x7b ...it, ...patch, id: it.id, updatedAt: nowISO() \x7d` lets the patch
overwrite any idea field; only `id` and `updatedAt` are re-imposed after
the spread, so the patch keys for the remaining fields — including
`createdAt`, `likeCount` and `commentCount` — take effect. -/
structure EditPatch where
  title : Option String
  symbol : Option String
  levelText : Option String
  take : Option String
  type : Option String
  imageUrl : Option (Option String)
  imageData : Option String
  summary : Option String
  id : Option String
  createdAt : Option Nat
  updatedAt : Option Nat
  likeCount : Option Nat
  commentCount : Option Nat
deriving DecidableEq, Repr

/-- `case 'post_edit'` of `POST /ideas`: 404 when the idea is absent,
otherwise `next = \x7b ...it, ...patch, id: it.id, updatedAt: now \x7d`
followed by `saveIdea(next)`. -/
def postEditOp (s : ServerState) (ideaId : String) (patch : EditPatch) (now : Nat) :
    Except ApiErr (ServerState × Idea) :=
  match getIdea s ideaId with
  | none => .error (.notFound "Not found")
  | some it =>
      let next : Idea :=
        { id := it.id
          title := patch.title.getD it.title
          symbol := patch.symbol.getD it.symbol
          levelText := patch.levelText.getD it.levelText
          take := patch.take.getD it.take
          type := patch.type.getD it.type
          imageUrl := patch.imageUrl.getD it.imageUrl
          imageData := patch.imageData.getD it.imageData
          summary := patch.summary.getD it.summary
          createdAt := patch.createdAt.getD it.createdAt
          updatedAt := now
          likeCount := patch.likeCount.getD it.likeCount
          commentCount := patch.commentCount.getD it.commentCount }
      .ok (saveIdea s next now, next)

/-- `DELETE /ideas/:id`: 404 when absent, otherwise `deleteIdea(id)`. -/
def deleteIdeaRoute (s : ServerState) (ideaId : String) : Except ApiErr ServerState :=
  match getIdea s ideaId with
  | none => .error (.notFound "Not found")
  | some _ => .ok (deleteIdea s ideaId)

/-- `GET /ideas/:id`. -/
def getIdeaRoute (s : ServerState) (ideaId : String) : Except ApiErr Idea :=
  match getIdea s ideaId with
  | none => .error (.notFound "Not found")
  | some it => .ok it

/-- `GET /ideas/:id/comments`: serves `listComments` without checking
that the idea exists. -/
def getCommentsRoute (s : ServerState) (ideaId : String) : List Comment :=
  listComments s ideaId

/-- `POST /ideas/:id/comments`: 404 when the idea is absent, otherwise
`addComment(id, text, 'You')`.  The text is not validated. -/
def postCommentRoute (s : ServerState) (ideaId text freshId : String) (now : Nat) :
    Except ApiErr (ServerState × Comment) :=
  match getIdea s ideaId with
  | none => .error (.notFound "Idea not found")
  | some _ => .ok (addComment s ideaId text "You" freshId now)

/-- `PATCH /ideas/:id/comments/:cid`: 404 when `editComment` reports the
comment absent. -/
def patchCommentRoute (s : ServerState) (ideaId cid text : String) :
    Except ApiErr ServerState :=
  let r := editComment s ideaId cid text
  if r.2 then .ok r.1 else .error (.notFound "Comment not found")

/-- `DELETE /ideas/:id/comments/:cid`: 404 when `deleteCommentById`
reports the comment absent. -/
def deleteCommentRoute (s : ServerState) (ideaId cid : String) :
    Except ApiErr ServerState :=
  let r := deleteCommentById s ideaId cid
  if r.2 then .ok r.1 else .error (.notFound "Comment not found")

/-- Response body shared by the like routes:
`\x7b ok: true, likeCount: count, liked \x7d`. -/
structure LikeResult where
  ok : Bool
  likeCount : Nat
  liked : Bool
deriving DecidableEq, Repr

/-- `PUT /ideas/:id/likes`: 404 when the idea is absent; otherwise
`delta = Number((req.body && req.body.delta) || 0)` (absence reads as 0),
`target = delta > 0 ? true : delta < 0 ? false : !cur`, and
`count = setLike(id, who, target)`.  `who` is `tokenKey(req)`. -/
def putIdeaLikes (s : ServerState) (ideaId who : String) (delta : Option Int) :
    Except ApiErr (ServerState × LikeResult) :=
  match getIdea s ideaId with
  | none => .error (.notFound "Idea not found")
  | some _ =>
      let d := delta.getD 0
      let cur := likedState s ideaId who
      let target := if d > 0 then true else if d < 0 then false else !cur
      let r := setLike s ideaId who target
      .ok (r.1, { ok := true, likeCount := r.2, liked := target })

/-- Body of the shared like-set aliases (`likeSet`, `likeSetFromBody` and
the `like_toggle` op with an explicit boolean): 404 when the idea is
absent, otherwise `setLike` with the explicit flag, or `toggleLikeState`
when the flag is absent. -/
def likeToggleOp (s : ServerState) (ideaId who : String) (like : Option Bool) :
    Except ApiErr (ServerState × LikeResult) :=
  match getIdea s ideaId with
  | none => .error (.notFound "Idea not found")
  | some _ =>
      let r := match like with
        | none => toggleLikeState s ideaId who
        | some b => setLike s ideaId who b
      .ok (r.1, { ok := true, likeCount := r.2, liked := likedState r.1 ideaId who })

/-- `GET /ideas/latest`: 204 (`none`) on an empty store, otherwise the
head of the ideas sorted by `createdAt` descending
(`[...ideas].sort((a,b) => new Date(b.createdAt) - new Date(a.createdAt))[0]`). -/
def latestIdea (s : ServerState) : Option Idea :=
  if s.ideas.isEmpty then none
  else (s.ideas.mergeSort (fun a b => decide (b.createdAt ≤ a.createdAt))).head?

/-! ### Identity resolver (`tokenKey`) of the README server -/

/-- `isAuthed(req)`: `true` when `API_TOKEN` is unset, otherwise the
cleaned bearer token must equal `API_TOKEN`. -/
def isAuthed (apiToken bearer : String) : Bool :=
  if apiToken = "" then true else bearer == apiToken

/-- `tokenKey(req)`.  `sha1hex` abstracts the `sha1` helper
(`crypto.createHash('sha1')...digest('hex')`); `bearer` is the cleaned
`Authorization` token ('' when absent); `ip` and `ua` are `req.ip` and the
`user-agent` header. -/
def tokenKey (sha1hex : String → String) (apiToken : String) (publicLikes : Bool)
    (bearer ip ua : String) : String :=
  if isAuthed apiToken bearer && !(apiToken == "") then "owner"
  else if publicLikes then "pub_" ++ (sha1hex (ip ++ "|" ++ ua)).take 12
  else "anon"

/-! ### SSE fan-out: README `broadcastIdeas` vs `server.cjs` `sseBroadcast`

Subscriber connections are numbered by `Nat`; `writeFails c` says whether
`res.write` on connection `c` throws.  A send is an `Except` value. -/

/-- One `res.write`, which either succeeds or throws. -/
def sseWrite (writeFails : Nat → Bool) (c : Nat) : Except String Unit :=
  if writeFails c then Except.error "EPIPE: broken pipe" else Except.ok ()

/-- README `broadcastIdeas(msg)`: each send is wrapped in its own
`try ... catch \x7b\x7d`, so a throwing write is swallowed and the loop
continues. -/
def broadcastIdeas (writeFails : Nat → Bool) (clients : List Nat) : Except String Unit :=
  clients.foldlM
    (fun _ c =>
      match sseWrite writeFails c with
      | .ok _ => Except.ok ()
      | .error _ => Except.ok ())
    ()

/-- `server.cjs` `sseBroadcast(evt, data)` (the first variant in the
file): `for (const \x7b res \x7d of sseClients) res.write(payload)` with no
try/catch, so the first throwing write aborts the loop and the exception
escapes to the caller. -/
def sseBroadcastC (writeFails : Nat → Bool) (clients : List Nat) : Except String Unit :=
  clients.foldlM (fun _ c => sseWrite writeFails c) ()

/-! ### The `server.cjs` idea model (per-idea `likes` counter) -/

/-- Idea row of the first `server.cjs` variant. -/
structure CIdea where
  id : String
  title : String
  content : String
  symbol : String
  tf : String
  likes : Nat
  createdAt : Nat
  updatedAt : Nat
deriving DecidableEq, Repr

/-- In-place mutation of the first `server.cjs` idea whose id matches. -/
def updateFirstC (f : CIdea → CIdea) : List CIdea → String → List CIdea
  | [], _ => []
  | x :: rest, ideaId =>
      if x.id == ideaId then f x :: rest else x :: updateFirstC f rest ideaId

/-- `server.cjs` `PUT /ideas/:id/likes`: 404 when absent, otherwise
`idea.likes = Math.max(0, (idea.likes || 0) + Math.trunc(delta))`, refresh
`updatedAt`, persist, then `sseBroadcast('likes', ...)` runs with no
per-subscriber error handling before the response is sent, so a throwing
subscriber write leaves the store mutated while the caller receives an
error instead of the success payload. -/
def putLikesC (writeFails : Nat → Bool) (clients : List Nat) (ideas : List CIdea)
    (ideaId : String) (delta : Int) (now : Nat) : List CIdea × Except ApiErr CIdea :=
  match ideas.find? (fun i => i.id == ideaId) with
  | none => (ideas, .error (.notFound "idea not found"))
  | some idea =>
      let idea' := { idea with likes := ((idea.likes : Int) + delta).toNat, updatedAt := now }
      let ideas' := updateFirstC (fun _ => idea') ideas ideaId
      match sseBroadcastC writeFails clients with
      | .error e => (ideas', .error (.internal e))
      | .ok _ => (ideas', .ok idea')

/-- The full `server.cjs` `PUT /ideas/:id/likes` body: before any lookup,
`if (typeof delta !== 'number' || !Number.isFinite(delta))` rejects with
400 `'delta must be a number'` — an absent delta is `undefined` and takes
this branch (`none` models a missing or non-numeric delta). -/
def putLikesCBody (writeFails : Nat → Bool) (clients : List Nat) (ideas : List CIdea)
    (ideaId : String) (delta : Option Int) (now : Nat) : List CIdea × Except ApiErr CIdea :=
  match delta with
  | none => (ideas, .error (.badRequest "delta must be a number"))
  | some d => putLikesC writeFails clients ideas ideaId d now

/-! ### The `server.patched.cjs` model (embedded `likedBy` / `comments`) -/

/-- Comment row of `server.patched.cjs`. -/
structure PComment where
  id : String
  text : String
  authorId : String
  authorName : String
  createdAt : Nat
  updatedAt : Nat
deriving DecidableEq, Repr

/-- Idea row of `server.patched.cjs` (`likedBy` is a `Set` of user ids,
`comments` an embedded array). -/
structure PIdea where
  id : String
  type : String
  title : String
  symbol : String
  link : String
  levelText : String
  take : String
  imageUrl : String
  imageData : String
  authorName : String
  authorId : String
  summary : String
  likedBy : List String
  comments : List PComment
  createdAt : Nat
  updatedAt : Nat
deriving DecidableEq, Repr

/-- In-place mutation of the first `server.patched.cjs` idea whose id
matches. -/
def updateFirstP (f : PIdea → PIdea) : List PIdea → String → List PIdea
  | [], _ => []
  | x :: rest, ideaId =>
      if x.id == ideaId then f x :: rest else x :: updateFirstP f rest ideaId

/-- `server.patched.cjs` `POST /ideas/:id/comments`: 404 when the idea is
absent, 400 (`'text required'`) when the text is empty after trimming,
otherwise one comment is pushed and the idea's `updatedAt` refreshed. -/
def postCommentPatched (ideas : List PIdea) (ideaId text authorId authorName freshId : String)
    (now : Nat) : Except ApiErr (List PIdea × PComment) :=
  match ideas.find? (fun i => i.id == ideaId) with
  | none => .error (.notFound "not found")
  | some _ =>
      if jsTrim text = "" then .error (.badRequest "text required")
      else
        let comment : PComment :=
          { id := freshId, text := text, authorId := authorId, authorName := authorName,
            createdAt := now, updatedAt := now }
        let ideas' := updateFirstP
          (fun i => { i with comments := i.comments ++ [comment], updatedAt := now })
          ideas ideaId
        .ok (ideas', comment)

/-! ### The `server.js` create route (SQLite-backed) -/

/-- Idea row of the `server.js` `ideas` table. -/
structure SJIdea where
  id : String
  type : String
  title : String
  symbol : String
  levelText : String
  take : String
  imageUrl : Option String
  createdAt : Nat
deriving DecidableEq, Repr

/-- `server.js` `POST /ideas`: trims every field, upper-cases the symbol,
rejects with 400 (`'title is required'`) when the trimmed title is empty,
otherwise inserts the row.  The optional `imageData` file-saving branch is
filesystem I/O outside the store and is elided (`imageUrl` stays `null`
as initialized). -/
def createIdeaSJ (rows : List SJIdea) (title symbol levelText tak ty freshId : String)
    (now : Nat) : Except ApiErr (List SJIdea × SJIdea) :=
  let data : SJIdea :=
    { id := freshId
      type := if jsTrim ty = "" then "post" else jsTrim ty
      title := jsTrim title
      symbol := (jsTrim symbol).toUpper
      levelText := jsTrim levelText
      take := jsTrim tak
      imageUrl := none
      createdAt := now }
  if data.title = "" then .error (.badRequest "title is required")
  else .ok (rows ++ [data], data)

/-! ### Operation sequences over the like ledger

Every like alias of the README server (`likeSet`, `likeSetFromBody`, the
`like_toggle` op, `likeToggle`, `likeToggleFromBody`, and the `PUT` delta
route) funnels into exactly one `setLike` or `toggleLikeState` call, so a
sequence of alias requests acts on the store as a sequence of these two
canonical operations. -/

/-- One canonical like-ledger mutation. -/
inductive LikeOp where
  | set (ideaId who : String) (value : Bool)
  | toggle (ideaId who : String)
deriving DecidableEq, Repr

/-- Apply one canonical like operation to the store. -/
def applyLikeOp (s : ServerState) (op : LikeOp) : ServerState :=
  match op with
  | .set ideaId who v => (setLike s ideaId who v).1
  | .toggle ideaId who => (toggleLikeState s ideaId who).1

/-- Apply a sequence of canonical like operations. -/
def applyLikeOps (s : ServerState) (ops : List LikeOp) : ServerState :=
  ops.foldl applyLikeOp s

/-- Idea ids are pairwise distinct (the spec's uniqueness invariant). -/
def IdsNodup (s : ServerState) : Prop :=
  (s.ideas.map Idea.id).Nodup

/-- The C1 invariant: every stored idea's `likeCount` equals the number of
`true` values in its row of `likesBy`. -/
def LikeInvariant (s : ServerState) : Prop :=
  ∀ i ∈ s.ideas, i.likeCount = countTrue (likesOf s i.id)

instance (s : ServerState) : Decidable (IdsNodup s) := by
  unfold IdsNodup; infer_instance

instance (s : ServerState) : Decidable (LikeInvariant s) := by
  unfold LikeInvariant; infer_instance

/-! ### Concrete fixtures for counterexamples and witnesses -/

/-- Concrete store for the C2 counterexample: one idea `"a"` with a like
from `"u1"` and one comment `"c1"`. -/
def c2state : ServerState :=
  { ideas := [{ id := "a", title := "t", symbol := "", levelText := "", take := "",
                type := "idea", imageUrl := none, imageData := "", summary := "",
                createdAt := 0, updatedAt := 0, likeCount := 1, commentCount := 1 }],
    likesBy := [("a", [("u1", true)])],
    commentsBy := [("a", [{ id := "c1", userId := "You", text := "nice", createdAt := 0 }])] }

/-- Concrete store for C3: one idea `"a"` with consistent zero counts. -/
def c3state : ServerState :=
  { ideas := [{ id := "a", title := "t", symbol := "", levelText := "", take := "",
                type := "idea", imageUrl := none, imageData := "", summary := "",
                createdAt := 0, updatedAt := 0, likeCount := 0, commentCount := 0 }],
    likesBy := [], commentsBy := [] }

/-- Patch payload that tries to override the protected fields. -/
def c3patch : EditPatch :=
  { title := none, symbol := none, levelText := none, take := none, type := none,
    imageUrl := none, imageData := none, summary := none, id := some "evil",
    createdAt := some 123, updatedAt := some 777, likeCount := some 99,
    commentCount := some 55 }

/-- Concrete store for C4: one idea `"a"` with no comments. -/
def c4state : ServerState :=
  { ideas := [{ id := "a", title := "t", symbol := "", levelText := "", take := "",
                type := "idea", imageUrl := none, imageData := "", summary := "",
                createdAt := 0, updatedAt := 0, likeCount := 0, commentCount := 0 }],
    likesBy := [], commentsBy := [] }

/-- One `server.patched.cjs` idea used by the C4 witness. -/
def c4pIdea : PIdea :=
  { id := "a", type := "idea", title := "t", symbol := "", link := "", levelText := "",
    take := "", imageUrl := "", imageData := "", authorName := "Member", authorId := "",
    summary := "", likedBy := [], comments := [], createdAt := 0, updatedAt := 0 }

/-- Create body with an empty title for the C5 counterexample. -/
def c5body : CreateBody :=
  { title := "", symbol := "", levelText := "", take := "", type := "idea",
    imageUrl := none, imageData := "", summary := "" }

/-- `server.cjs` idea `"a"` with zero likes, for the C7 counterexample. -/
def c7cIdea0 : CIdea :=
  { id := "a", title := "t", content := "c", symbol := "", tf := "",
    likes := 0, createdAt := 0, updatedAt := 0 }

/-- `server.cjs` idea `"a"` with three likes, for the C7 counterexample
and witness. -/
def c7cIdea3 : CIdea :=
  { id := "a", title := "t", content := "c", symbol := "", tf := "",
    likes := 3, createdAt := 0, updatedAt := 0 }

/-- Concrete three-idea store used by the C10 witness. -/
def c10state : ServerState :=
  { ideas := [{ id := "x", title := "t", symbol := "", levelText := "", take := "",
                type := "idea", imageUrl := none, imageData := "", summary := "",
                createdAt := 5, updatedAt := 0, likeCount := 0, commentCount := 0 },
              { id := "y", title := "t", symbol := "", levelText := "", take := "",
                type := "idea", imageUrl := none, imageData := "", summary := "",
                createdAt := 9, updatedAt := 0, likeCount := 0, commentCount := 0 },
              { id := "z", title := "t", symbol := "", levelText := "", take := "",
                type := "idea", imageUrl := none, imageData := "", summary := "",
                createdAt := 2, updatedAt := 0, likeCount := 0, commentCount := 0 }],
    likesBy := [], commentsBy := [] }

/-! ### Association-list lemmas -/

theorem lookupEntry_cons {α : Type} (k₀ : String) (v₀ : α) (rest : List (String × α))
    (k : String) :
    lookupEntry ((k₀, v₀) :: rest) k = if k₀ = k then some v₀ else lookupEntry rest k := rfl

theorem setEntry_cons {α : Type} (k₀ : String) (v₀ : α) (rest : List (String × α))
    (k : String) (v : α) :
    setEntry ((k₀, v₀) :: rest) k v
      = if k₀ = k then (k, v) :: rest else (k₀, v₀) :: setEntry rest k v := rfl

theorem lookupEntry_setEntry_self {α : Type} (m : List (String × α)) (k : String) (v : α) :
    lookupEntry (setEntry m k v) k = some v := by
  induction m with
  | nil => simp [setEntry, lookupEntry]
  | cons p rest ih =>
      obtain ⟨k₀, v₀⟩ := p
      by_cases h : k₀ = k
      · simp [setEntry_cons, lookupEntry_cons, h]
      · simp [setEntry_cons, lookupEntry_cons, h, ih]

theorem lookupEntry_setEntry_ne {α : Type} (m : List (String × α)) (k k' : String) (v : α)
    (h : k' ≠ k) : lookupEntry (setEntry m k v) k' = lookupEntry m k' := by
  have hk : ¬k = k' := fun hkk => h hkk.symm
  induction m with
  | nil => simp [setEntry, lookupEntry, hk]
  | cons p rest ih =>
      obtain ⟨k₀, v₀⟩ := p
      by_cases hp : k₀ = k
      · subst hp
        simp [setEntry_cons, lookupEntry_cons, hk]
      · simp [setEntry_cons, lookupEntry_cons, hp, ih]

theorem setEntry_setEntry_self {α : Type} (m : List (String × α)) (k : String) (v v' : α) :
    setEntry (setEntry m k v) k v' = setEntry m k v' := by
  induction m with
  | nil => simp [setEntry]
  | cons p rest ih =>
      obtain ⟨k₀, v₀⟩ := p
      by_cases h : k₀ = k
      · simp [setEntry_cons, h]
      · simp [setEntry_cons, h, ih]

/-- Rewriting a key to the value it already reads back (with absence read
as `false`) does not change the number of `true` entries. -/
theorem countTrue_setEntry_getD (m : List (String × Bool)) (k : String) :
    countTrue (setEntry m k ((lookupEntry m k).getD false)) = countTrue m := by
  induction m with
  | nil => simp [setEntry, lookupEntry, countTrue]
  | cons p rest ih =>
      by_cases h : p.1 = k
      · cases p with
        | mk k₀ v₀ => simp_all [setEntry, lookupEntry, countTrue]
      · cases p with
        | mk k₀ v₀ =>
            simp only [setEntry, lookupEntry, h, if_neg] at ih ⊢
            by_cases hv : v₀ <;> simp [countTrue, hv] at ih ⊢ <;> omega

/-! ### updateFirst lemmas -/

theorem updateFirst_cons_pos (f : Idea → Idea) (x : Idea) (rest : List Idea)
    (tid : String) (h : x.id = tid) :
    updateFirst f (x :: rest) tid = f x :: rest := by
  simp [updateFirst, h]

theorem updateFirst_cons_neg (f : Idea → Idea) (x : Idea) (rest : List Idea)
    (tid : String) (h : x.id ≠ tid) :
    updateFirst f (x :: rest) tid = x :: updateFirst f rest tid := by
  simp [updateFirst, h]

theorem map_id_updateFirst (f : Idea → Idea) (hf : ∀ x, (f x).id = x.id)
    (l : List Idea) (tid : String) :
    (updateFirst f l tid).map Idea.id = l.map Idea.id := by
  induction l with
  | nil => simp [updateFirst]
  | cons x rest ih =>
      by_cases h : x.id = tid
      · simp [updateFirst_cons_pos _ _ _ _ h, hf]
      · simp [updateFirst_cons_neg _ _ _ _ h, ih]

theorem find?_updateFirst (f : Idea → Idea) (hf : ∀ x, (f x).id = x.id)
    (l : List Idea) (tid : String) :
    (updateFirst f l tid).find? (fun x => x.id == tid)
      = (l.find? (fun x => x.id == tid)).map f := by
  induction l with
  | nil => simp [updateFirst]
  | cons x rest ih =>
      by_cases h : x.id = tid
      · rw [updateFirst_cons_pos _ _ _ _ h,
          List.find?_cons_of_pos _ (by simp [hf, h]),
          List.find?_cons_of_pos _ (by simp [h])]
        rfl
      · rw [updateFirst_cons_neg _ _ _ _ h,
          List.find?_cons_of_neg _ (by simp [h]),
          List.find?_cons_of_neg _ (by simp [h]), ih]

/-- Core preservation step: writing count `c` into the first idea whose id
is `tid` re-establishes a pointwise count specification `G` that differs
from the old specification `F` only at `tid`, provided the ids are
pairwise distinct. -/
theorem updateFirst_count_spec (F G : String → Nat) (tid : String) (c : Nat)
    (l : List Idea) (hnd : (l.map Idea.id).Nodup)
    (hold : ∀ i ∈ l, i.likeCount = F i.id)
    (hGF : ∀ x, x ≠ tid → G x = F x)
    (hc : c = G tid) :
    ∀ j ∈ updateFirst (fun it => { it with likeCount := c }) l tid,
      j.likeCount = G j.id := by
  induction l with
  | nil => simp [updateFirst]
  | cons x rest ih =>
      simp only [List.map_cons, List.nodup_cons] at hnd
      by_cases h : x.id = tid
      · intro j hj
        rw [updateFirst_cons_pos _ _ _ _ h] at hj
        rcases List.mem_cons.mp hj with hj | hj
        · subst hj
          show c = G x.id
          rw [h]; exact hc
        · have hjx : j.id ≠ tid := by
            intro hcontra
            exact hnd.1 (h ▸ List.mem_map.mpr ⟨j, hj, hcontra⟩)
          rw [hGF _ hjx]
          exact hold j (List.mem_cons_of_mem _ hj)
      · intro j hj
        rw [updateFirst_cons_neg _ _ _ _ h] at hj
        rcases List.mem_cons.mp hj with hj | hj
        · subst hj
          rw [hGF _ h]
          exact hold j (List.mem_cons_self _ _)
        · exact ih hnd.2 (fun i hi => hold i (List.mem_cons_of_mem _ hi)) j hj

/-! ### setLike structure lemmas -/

theorem setLike_fst_likesBy (s : ServerState) (tid who : String) (v : Bool) :
    (setLike s tid who v).1.likesBy
      = setEntry s.likesBy tid (setEntry (likesOf s tid) who v) := by
  simp [setLike, recalcLikeCount]

theorem setLike_fst_commentsBy (s : ServerState) (tid who : String) (v : Bool) :
    (setLike s tid who v).1.commentsBy = s.commentsBy := by
  simp [setLike, recalcLikeCount]

theorem likesOf_setLike_self (s : ServerState) (tid who : String) (v : Bool) :
    likesOf (setLike s tid who v).1 tid = setEntry (likesOf s tid) who v := by
  simp [likesOf, setLike_fst_likesBy, lookupEntry_setEntry_self]

theorem likesOf_setLike_ne (s : ServerState) (tid who x : String) (v : Bool) (h : x ≠ tid) :
    likesOf (setLike s tid who v).1 x = likesOf s x := by
  simp [likesOf, setLike_fst_likesBy, lookupEntry_setEntry_ne _ _ _ _ h]

theorem setLike_snd (s : ServerState) (tid who : String) (v : Bool) :
    (setLike s tid who v).2 = countTrue (setEntry (likesOf s tid) who v) := by
  simp [setLike, recalcLikeCount, likesOf, lookupEntry_setEntry_self]

theorem setLike_fst_ideas (s : ServerState) (tid who : String) (v : Bool) :
    (setLike s tid who v).1.ideas
      = updateFirst (fun it => { it with likeCount := (setLike s tid who v).2 })
          s.ideas tid := by
  simp [setLike, recalcLikeCount, likesOf, lookupEntry_setEntry_self]

theorem likedState_setLike_self (s : ServerState) (tid who : String) (v : Bool) :
    likedState (setLike s tid who v).1 tid who = v := by
  simp [likedState, likesOf_setLike_self, lookupEntry_setEntry_self]

/-! ### Invariant preservation -/

theorem idsNodup_setLike (s : ServerState) (tid who : String) (v : Bool)
    (hnd : IdsNodup s) : IdsNodup (setLike s tid who v).1 := by
  unfold IdsNodup at hnd ⊢
  rw [setLike_fst_ideas,
    map_id_updateFirst (fun it => { it with likeCount := (setLike s tid who v).2 })
      (fun _ => rfl)]
  exact hnd

theorem likeInvariant_setLike (s : ServerState) (tid who : String) (v : Bool)
    (hnd : IdsNodup s) (hinv : LikeInvariant s) :
    LikeInvariant (setLike s tid who v).1 := by
  intro j hj
  rw [setLike_fst_ideas] at hj
  refine updateFirst_count_spec
    (fun x => countTrue (likesOf s x))
    (fun x => countTrue (likesOf (setLike s tid who v).1 x))
    tid (setLike s tid who v).2 s.ideas hnd hinv ?_ ?_ j hj
  · intro x hx
    show countTrue (likesOf (setLike s tid who v).1 x) = countTrue (likesOf s x)
    rw [likesOf_setLike_ne _ _ _ _ _ hx]
  · show (setLike s tid who v).2 = countTrue (likesOf (setLike s tid who v).1 tid)
    rw [likesOf_setLike_self, setLike_snd]

theorem applyLikeOp_preserves (s : ServerState) (op : LikeOp)
    (hnd : IdsNodup s) (hinv : LikeInvariant s) :
    IdsNodup (applyLikeOp s op) ∧ LikeInvariant (applyLikeOp s op) := by
  cases op with
  | set tid who v =>
      exact ⟨idsNodup_setLike s tid who v hnd, likeInvariant_setLike s tid who v hnd hinv⟩
  | toggle tid who =>
      exact ⟨idsNodup_setLike s tid who _ hnd, likeInvariant_setLike s tid who _ hnd hinv⟩

theorem applyLikeOps_preserves (ops : List LikeOp) (s : ServerState)
    (hnd : IdsNodup s) (hinv : LikeInvariant s) :
    IdsNodup (applyLikeOps s ops) ∧ LikeInvariant (applyLikeOps s ops) := by
  induction ops generalizing s with
  | nil => exact ⟨hnd, hinv⟩
  | cons op rest ih =>
      have h := applyLikeOp_preserves s op hnd hinv
      simpa [applyLikeOps, List.foldl_cons] using ih (applyLikeOp s op) h.1 h.2

/-- C1.  For every idea present in the store, after any sequence of
like-set and like-toggle operations (through any route alias — every alias
funnels into `setLike` / `toggleLikeState`), the idea's stored `likeCount`
equals the number of whoKeys mapped to `true` in that idea's row of the
`likesBy` map; the like operations mutate `likeCount` only through
`recalcLikeCount`, so the invariant is preserved from any state satisfying
it (ids pairwise distinct, as the spec requires). -/
theorem likeCount_invariant (s : ServerState) (ops : List LikeOp)
    (hnd : IdsNodup s) (hinv : LikeInvariant s) :
    LikeInvariant (applyLikeOps s ops) :=
  (applyLikeOps_preserves ops s hnd hinv).2

/-- Witness for C1 at a concrete store and operation sequence. -/
theorem likeCount_invariant_witness :
    IdsNodup ⟨[{ id := "a", title := "t", symbol := "", levelText := "", take := "",
                 type := "idea", imageUrl := none, imageData := "", summary := "",
                 createdAt := 0, updatedAt := 0, likeCount := 0, commentCount := 0 }], [], []⟩ ∧
    LikeInvariant (applyLikeOps
      ⟨[{ id := "a", title := "t", symbol := "", levelText := "", take := "",
          type := "idea", imageUrl := none, imageData := "", summary := "",
          createdAt := 0, updatedAt := 0, likeCount := 0, commentCount := 0 }], [], []⟩
      [.toggle "a" "u1", .set "a" "u2" true, .toggle "a" "u1", .set "a" "u2" true]) :=
  ⟨by decide, likeCount_invariant _ _ (by decide) (by decide)⟩

/-! ### C6: toggling twice restores liked state and like count -/

theorem getIdea_setLike_self (s : ServerState) (tid who : String) (v : Bool) :
    getIdea (setLike s tid who v).1 tid
      = (getIdea s tid).map (fun it => { it with likeCount := (setLike s tid who v).2 }) := by
  unfold getIdea
  rw [setLike_fst_ideas]
  exact find?_updateFirst (fun it => { it with likeCount := (setLike s tid who v).2 })
    (fun _ => rfl) s.ideas tid

/-- C6.  For an existing idea, in a state where the like-count invariant
holds (every reachable state, by C1), applying `toggleLikeState` twice for
the same `(ideaId, who)` restores the pair's liked state and restores the
idea's stored `likeCount` to its original value. -/
theorem toggle_toggle_restores (s : ServerState) (ideaId who : String)
    (i : Idea) (hex : getIdea s ideaId = some i) (hinv : LikeInvariant s) :
    likedState (toggleLikeState (toggleLikeState s ideaId who).1 ideaId who).1 ideaId who
      = likedState s ideaId who ∧
    (getIdea (toggleLikeState (toggleLikeState s ideaId who).1 ideaId who).1 ideaId).map
        Idea.likeCount = some i.likeCount := by
  have hid : i.id = ideaId := by
    have h := List.find?_some hex
    simpa using h
  have hmem : i ∈ s.ideas := List.mem_of_find?_eq_some hex
  have hcnt : i.likeCount = countTrue (likesOf s ideaId) := by
    have h := hinv i hmem
    rwa [hid] at h
  have h2 : toggleLikeState (toggleLikeState s ideaId who).1 ideaId who
      = setLike (toggleLikeState s ideaId who).1 ideaId who (likedState s ideaId who) := by
    show setLike _ ideaId who (!(likedState (toggleLikeState s ideaId who).1 ideaId who)) = _
    rw [show likedState (toggleLikeState s ideaId who).1 ideaId who
          = !(likedState s ideaId who) from likedState_setLike_self ..]
    rw [Bool.not_not]
  constructor
  · rw [h2, likedState_setLike_self]
  · rw [h2, getIdea_setLike_self]
    rw [show getIdea (toggleLikeState s ideaId who).1 ideaId
          = (getIdea s ideaId).map
              (fun it => { it with likeCount := (toggleLikeState s ideaId who).2 }) from
        getIdea_setLike_self ..]
    rw [hex]
    simp only [Option.map_some']
    congr 1
    rw [setLike_snd]
    rw [show likesOf (toggleLikeState s ideaId who).1 ideaId
          = setEntry (likesOf s ideaId) who (!(likedState s ideaId who)) from
        likesOf_setLike_self ..]
    rw [setEntry_setEntry_self, hcnt]
    exact countTrue_setEntry_getD (likesOf s ideaId) who

/-- Witness for C6 at a concrete store with one idea and one liker. -/
theorem toggle_toggle_restores_witness :
    likedState (toggleLikeState (toggleLikeState
        ⟨[{ id := "a", title := "t", symbol := "", levelText := "", take := "",
            type := "idea", imageUrl := none, imageData := "", summary := "",
            createdAt := 0, updatedAt := 0, likeCount := 1, commentCount := 0 }],
          [("a", [("u1", true)])], []⟩ "a" "u1").1 "a" "u1").1 "a" "u1"
      = likedState
          ⟨[{ id := "a", title := "t", symbol := "", levelText := "", take := "",
              type := "idea", imageUrl := none, imageData := "", summary := "",
              createdAt := 0, updatedAt := 0, likeCount := 1, commentCount := 0 }],
            [("a", [("u1", true)])], []⟩ "a" "u1" ∧
    (getIdea (toggleLikeState (toggleLikeState
        ⟨[{ id := "a", title := "t", symbol := "", levelText := "", take := "",
            type := "idea", imageUrl := none, imageData := "", summary := "",
            createdAt := 0, updatedAt := 0, likeCount := 1, commentCount := 0 }],
          [("a", [("u1", true)])], []⟩ "a" "u1").1 "a" "u1").1 "a").map
        Idea.likeCount = some 1 :=
  toggle_toggle_restores _ "a" "u1"
    { id := "a", title := "t", symbol := "", levelText := "", take := "",
      type := "idea", imageUrl := none, imageData := "", summary := "",
      createdAt := 0, updatedAt := 0, likeCount := 1, commentCount := 0 }
    (by decide) (by decide)

/-! ### C7: the PUT delta like route -/

/-- C7 counterexample.  The claim also covers the `server.cjs`
`dual('put', '/ideas/:id/likes')` route, which has no per-whoKey liked
state at all: two positive-delta requests from the same caller push the
bare counter 0 → 1 → 2 (a recomputed per-whoKey like count would stay 1),
a zero delta leaves the counter at 3 instead of applying the claimed
default toggle, and an absent delta is rejected with 400
`'delta must be a number'` instead of toggling. -/
theorem put_likes_delta_cjs_counterexample :
    (putLikesC (fun _ => false) [] [c7cIdea0] "a" 1 5).2.map CIdea.likes = .ok 1 ∧
    (putLikesC (fun _ => false) []
        (putLikesC (fun _ => false) [] [c7cIdea0] "a" 1 5).1 "a" 1 6).2.map CIdea.likes
      = .ok 2 ∧
    (putLikesC (fun _ => false) [] [c7cIdea3] "a" 0 5).2.map CIdea.likes = .ok 3 ∧
    putLikesCBody (fun _ => false) [] [c7cIdea3] "a" none 5
      = ([c7cIdea3], .error (.badRequest "delta must be a number")) :=
  ⟨rfl, rfl, rfl, rfl⟩

/-- C7 amended.  In the README server's `PUT /ideas/:id/likes` route on an
existing idea, the resulting liked state for the requester's whoKey is
`true` for a positive delta, `false` for a negative delta, and the
negation of the current state for a zero or absent delta, and the returned
count is the recomputed authoritative like count of the updated like map;
the `server.cjs` dual PUT route instead keeps a bare per-idea `likes`
counter with no per-whoKey state: a missing or non-numeric delta is
rejected with 400 before any lookup, and a numeric delta is truncated,
added to the counter and clamped at zero (so a zero delta leaves the
counter unchanged rather than toggling). -/
theorem put_likes_delta (s : ServerState) (ideaId who : String) (delta : Option Int)
    (i : Idea) (hex : getIdea s ideaId = some i) :
    (∃ s' r, putIdeaLikes s ideaId who delta = .ok (s', r) ∧
      r.liked = (if delta.getD 0 > 0 then true
                 else if delta.getD 0 < 0 then false
                 else !(likedState s ideaId who)) ∧
      likedState s' ideaId who = r.liked ∧
      r.likeCount = countTrue (likesOf s' ideaId)) ∧
    (∀ writeFails clients ideas iid now,
      putLikesCBody writeFails clients ideas iid none now
        = (ideas, .error (.badRequest "delta must be a number"))) ∧
    (∀ writeFails clients ideas iid (d : Int) now ci,
      ideas.find? (fun x => x.id == iid) = some ci →
      (putLikesC writeFails clients ideas iid d now).1
        = updateFirstC
            (fun _ => { ci with likes := ((ci.likes : Int) + d).toNat, updatedAt := now })
            ideas iid) := by
  refine ⟨?_, ?_, ?_⟩
  · unfold putIdeaLikes
    rw [hex]
    refine ⟨_, _, rfl, rfl, ?_, ?_⟩
    · exact likedState_setLike_self ..
    · show (setLike s ideaId who _).2 = _
      rw [setLike_snd, likesOf_setLike_self]
  · intro writeFails clients ideas iid now
    rfl
  · intro writeFails clients ideas iid d now ci h
    unfold putLikesC
    rw [h]
    cases sseBroadcastC writeFails clients <;> rfl

/-- Witness for the amended C7 theorem: a positive delta on the README
route, plus the `server.cjs` 400-on-absent-delta and counter-update
behavior at concrete inputs. -/
theorem put_likes_delta_witness :
    (∃ s' r, putIdeaLikes
        ⟨[{ id := "a", title := "t", symbol := "", levelText := "", take := "",
            type := "idea", imageUrl := none, imageData := "", summary := "",
            createdAt := 0, updatedAt := 0, likeCount := 0, commentCount := 0 }], [], []⟩
        "a" "u1" (some 1) = .ok (s', r) ∧
      r.liked = (if (some (1 : Int)).getD 0 > 0 then true
                 else if (some (1 : Int)).getD 0 < 0 then false
                 else !(likedState
          ⟨[{ id := "a", title := "t", symbol := "", levelText := "", take := "",
              type := "idea", imageUrl := none, imageData := "", summary := "",
              createdAt := 0, updatedAt := 0, likeCount := 0, commentCount := 0 }], [], []⟩
          "a" "u1")) ∧
      likedState s' "a" "u1" = r.liked ∧
      r.likeCount = countTrue (likesOf s' "a")) ∧
    putLikesCBody (fun _ => false) [] [c7cIdea3] "a" none 5
      = ([c7cIdea3], .error (.badRequest "delta must be a number")) ∧
    (putLikesC (fun _ => false) [] [c7cIdea3] "a" 1 5).1
      = updateFirstC
          (fun _ => { c7cIdea3 with likes := ((c7cIdea3.likes : Int) + 1).toNat, updatedAt := 5 })
          [c7cIdea3] "a" :=
  ⟨(put_likes_delta _ "a" "u1" (some 1)
      { id := "a", title := "t", symbol := "", levelText := "", take := "",
        type := "idea", imageUrl := none, imageData := "", summary := "",
        createdAt := 0, updatedAt := 0, likeCount := 0, commentCount := 0 }
      (by decide)).1,
   (put_likes_delta
      ⟨[{ id := "a", title := "t", symbol := "", levelText := "", take := "",
          type := "idea", imageUrl := none, imageData := "", summary := "",
          createdAt := 0, updatedAt := 0, likeCount := 0, commentCount := 0 }], [], []⟩
      "a" "u1" (some 1)
      { id := "a", title := "t", symbol := "", levelText := "", take := "",
        type := "idea", imageUrl := none, imageData := "", summary := "",
        createdAt := 0, updatedAt := 0, likeCount := 0, commentCount := 0 }
      (by decide)).2.1 (fun _ => false) [] [c7cIdea3] "a" 5,
   (put_likes_delta
      ⟨[{ id := "a", title := "t", symbol := "", levelText := "", take := "",
          type := "idea", imageUrl := none, imageData := "", summary := "",
          createdAt := 0, updatedAt := 0, likeCount := 0, commentCount := 0 }], [], []⟩
      "a" "u1" (some 1)
      { id := "a", title := "t", symbol := "", levelText := "", take := "",
        type := "idea", imageUrl := none, imageData := "", summary := "",
        createdAt := 0, updatedAt := 0, likeCount := 0, commentCount := 0 }
      (by decide)).2.2 (fun _ => false) [] [c7cIdea3] "a" 1 5 c7cIdea3 (by decide)⟩

/-! ### C2: deletion does not cascade -/

theorem id_ne_of_mem_removeFirstIdea (l : List Idea) (tid : String)
    (hnd : (l.map Idea.id).Nodup) :
    ∀ j ∈ removeFirstIdea l tid, j.id ≠ tid := by
  induction l with
  | nil => simp [removeFirstIdea]
  | cons x rest ih =>
      simp only [List.map_cons, List.nodup_cons] at hnd
      by_cases h : x.id = tid
      · intro j hj hcontra
        rw [show removeFirstIdea (x :: rest) tid = rest by simp [removeFirstIdea, h]] at hj
        exact hnd.1 (List.mem_map.mpr ⟨j, hj, hcontra.trans h.symm⟩)
      · intro j hj
        rw [show removeFirstIdea (x :: rest) tid = x :: removeFirstIdea rest tid by
          simp [removeFirstIdea, h]] at hj
        rcases List.mem_cons.mp hj with hj | hj
        · subst hj; exact h
        · exact ih hnd.2 j hj

theorem getIdea_deleteIdea_self (s : ServerState) (tid : String) (hnd : IdsNodup s) :
    getIdea (deleteIdea s tid) tid = none := by
  have hmem := id_ne_of_mem_removeFirstIdea s.ideas tid hnd
  unfold getIdea deleteIdea
  rw [List.find?_eq_none]
  intro x hx
  simpa using hmem x hx

/-- C2 counterexample.  After deleting idea `"a"`, the claim says every
comment operation on `"a"` returns NotFound and the like map and comment
list are removed; instead the comment-list route still serves the stale
comment, the comment edit and delete routes still succeed, and both the
`likesBy` row and the `commentsBy` row are retained (`deleteIdea` splices
only the `ideas` array). -/
theorem delete_idea_leaves_stale_data :
    (deleteIdeaRoute c2state "a").isOk = true ∧
    getIdea (deleteIdea c2state "a") "a" = none ∧
    getCommentsRoute (deleteIdea c2state "a") "a"
      = [{ id := "c1", userId := "You", text := "nice", createdAt := 0 }] ∧
    (patchCommentRoute (deleteIdea c2state "a") "a" "c1" "edited").isOk = true ∧
    (deleteCommentRoute (deleteIdea c2state "a") "a" "c1").isOk = true ∧
    lookupEntry (deleteIdea c2state "a").likesBy "a" = some [("u1", true)] ∧
    lookupEntry (deleteIdea c2state "a").commentsBy "a"
      = some [{ id := "c1", userId := "You", text := "nice", createdAt := 0 }] := by
  decide

/-- C2 amended.  After deleting an existing idea (ids pairwise distinct),
the idea no longer appears in `listIdeas` and `getIdea`, comment-add and
all like operations on its ID return NotFound; however the idea's
`likesBy` row and `commentsBy` row are retained verbatim, and the
comment-list route (which never checks idea existence) still serves the
stale comment list. -/
theorem delete_idea_amended (s : ServerState) (ideaId : String) (i : Idea)
    (hex : getIdea s ideaId = some i) (hnd : IdsNodup s) :
    deleteIdeaRoute s ideaId = .ok (deleteIdea s ideaId) ∧
    getIdea (deleteIdea s ideaId) ideaId = none ∧
    (∀ j ∈ (deleteIdea s ideaId).ideas, j.id ≠ ideaId) ∧
    (∀ text freshId now, postCommentRoute (deleteIdea s ideaId) ideaId text freshId now
        = .error (.notFound "Idea not found")) ∧
    (∀ who delta, putIdeaLikes (deleteIdea s ideaId) ideaId who delta
        = .error (.notFound "Idea not found")) ∧
    (deleteIdea s ideaId).likesBy = s.likesBy ∧
    (deleteIdea s ideaId).commentsBy = s.commentsBy ∧
    getCommentsRoute (deleteIdea s ideaId) ideaId = getCommentsRoute s ideaId := by
  have hnone : getIdea (deleteIdea s ideaId) ideaId = none :=
    getIdea_deleteIdea_self s ideaId hnd
  refine ⟨?_, hnone, ?_, ?_, ?_, rfl, rfl, rfl⟩
  · unfold deleteIdeaRoute
    rw [hex]
  · exact fun j hj => id_ne_of_mem_removeFirstIdea s.ideas ideaId hnd j hj
  · intro text freshId now
    unfold postCommentRoute
    rw [hnone]
  · intro who delta
    unfold putIdeaLikes
    rw [hnone]

/-- Witness for the amended C2 theorem at the concrete store. -/
theorem delete_idea_amended_witness :
    deleteIdeaRoute c2state "a" = .ok (deleteIdea c2state "a") ∧
    getIdea (deleteIdea c2state "a") "a" = none ∧
    (∀ j ∈ (deleteIdea c2state "a").ideas, j.id ≠ "a") ∧
    (∀ text freshId now, postCommentRoute (deleteIdea c2state "a") "a" text freshId now
        = .error (.notFound "Idea not found")) ∧
    (∀ who delta, putIdeaLikes (deleteIdea c2state "a") "a" who delta
        = .error (.notFound "Idea not found")) ∧
    (deleteIdea c2state "a").likesBy = c2state.likesBy ∧
    (deleteIdea c2state "a").commentsBy = c2state.commentsBy ∧
    getCommentsRoute (deleteIdea c2state "a") "a" = getCommentsRoute c2state "a" :=
  delete_idea_amended c2state "a"
    { id := "a", title := "t", symbol := "", levelText := "", take := "",
      type := "idea", imageUrl := none, imageData := "", summary := "",
      createdAt := 0, updatedAt := 0, likeCount := 1, commentCount := 1 }
    (by decide) (by decide)

/-! ### C3: update field protection, and the post_edit hole -/

/-- C3 counterexample.  The claim says no alias of the idea-mutate
operation — including the single-wire `post_edit` op — lets the payload
override `createdAt` or the derived counts; but `post_edit` spreads the
raw patch over the idea and re-imposes only `id` and `updatedAt`, so a
patch carrying `createdAt := 123`, `likeCount := 99`, `commentCount := 55`
takes effect on idea `"a"` of `c3state`. -/
theorem post_edit_overrides_protected_fields :
    (postEditOp c3state "a" c3patch 5).map
        (fun p => (p.2.id, p.2.createdAt, p.2.updatedAt, p.2.likeCount, p.2.commentCount))
      = .ok ("a", 123, 5, 99, 55) := by
  rfl

/-- C3 amended.  The `PATCH /ideas/:id` route merges only the provided
whitelisted fields, refreshes `updatedAt`, and never lets the payload
override `id`, `createdAt`, `likeCount` or `commentCount`; the single-wire
`post_edit` op protects only `id` (and stamps `updatedAt`) — its patch can
override `createdAt` and the derived counts. -/
theorem patch_idea_protects (s : ServerState) (ideaId : String) (b : PatchBody) (now : Nat)
    (i : Idea) (hex : getIdea s ideaId = some i) :
    ∃ s' next, patchIdea s ideaId b now = .ok (s', next) ∧
      next.id = i.id ∧ next.createdAt = i.createdAt ∧
      next.likeCount = i.likeCount ∧ next.commentCount = i.commentCount ∧
      next.updatedAt = now ∧
      next.title = b.title.getD i.title ∧
      next.symbol = b.symbol.getD i.symbol ∧
      next.levelText = b.levelText.getD i.levelText ∧
      next.summary = b.summary.getD i.summary ∧
      next.take = b.take.getD i.take ∧
      next.type = b.type.getD i.type ∧
      next.imageUrl = b.imageUrl.getD i.imageUrl ∧
      next.imageData = b.imageData.getD i.imageData ∧
      (∀ patch pnow s'' next', postEditOp s ideaId patch pnow = .ok (s'', next') →
        next'.id = i.id ∧ next'.updatedAt = pnow) := by
  unfold patchIdea
  rw [hex]
  refine ⟨_, _, rfl, rfl, rfl, rfl, rfl, rfl, rfl, rfl, rfl, rfl, rfl, rfl, rfl, rfl, ?_⟩
  intro patch pnow s'' next' h
  unfold postEditOp at h
  rw [hex] at h
  cases h
  exact ⟨rfl, rfl⟩

/-- Witness for the amended C3 theorem at the concrete store. -/
theorem patch_idea_protects_witness :
    ∃ s' next, patchIdea c3state "a"
        { title := some "new", symbol := none, levelText := none, summary := none,
          take := none, type := none, imageUrl := none, imageData := none } 9
      = .ok (s', next) ∧
      next.id = "a" ∧ next.createdAt = 0 ∧
      next.likeCount = 0 ∧ next.commentCount = 0 ∧
      next.updatedAt = 9 ∧
      next.title = "new" ∧ next.symbol = "" ∧ next.levelText = "" ∧
      next.summary = "" ∧ next.take = "" ∧ next.type = "idea" ∧
      next.imageUrl = none ∧ next.imageData = "" := by
  obtain ⟨s', next, heq, h⟩ := patch_idea_protects c3state "a"
    { title := some "new", symbol := none, levelText := none, summary := none,
      take := none, type := none, imageUrl := none, imageData := none } 9
    { id := "a", title := "t", symbol := "", levelText := "", take := "",
      type := "idea", imageUrl := none, imageData := "", summary := "",
      createdAt := 0, updatedAt := 0, likeCount := 0, commentCount := 0 }
    (by decide)
  exact ⟨s', next, heq, h.1, h.2.1, h.2.2.1, h.2.2.2.1, h.2.2.2.2.1, h.2.2.2.2.2.1,
    h.2.2.2.2.2.2.1, h.2.2.2.2.2.2.2.1, h.2.2.2.2.2.2.2.2.1, h.2.2.2.2.2.2.2.2.2.1,
    h.2.2.2.2.2.2.2.2.2.2.1, h.2.2.2.2.2.2.2.2.2.2.2.1, h.2.2.2.2.2.2.2.2.2.2.2.2.1⟩

/-! ### C4: comment-text validation -/

/-- C4 counterexample.  The claim says `addComment` fails with
ValidationError whenever the supplied text is empty after trimming; but
the README server's comment route performs no text validation: posting
the blank text `"   "` to existing idea `"a"` creates a comment and bumps
`commentCount` to 1. -/
theorem add_comment_accepts_blank_text :
    jsTrim "   " = "" ∧
    (postCommentRoute c4state "a" "   " "cm_1" 7).isOk = true ∧
    (postCommentRoute c4state "a" "   " "cm_1" 7).map
        (fun p => ((listComments p.1 "a").map Comment.text,
                   (getIdea p.1 "a").map Idea.commentCount))
      = .ok (["   "], some 1) := by
  refine ⟨by decide, by decide, by rfl⟩

/-- C4 amended.  In the README server, the comment-add operation fails
with NotFound when the target idea does not exist and otherwise appends
exactly one comment carrying the supplied text verbatim — empty-after-trim
text included; the empty-text ValidationError exists only in the
`server.patched.cjs` comment route, which rejects blank text with 400 and
absent ideas with 404. -/
theorem add_comment_amended (s : ServerState) (ideaId text freshId : String) (now : Nat)
    (pideas : List PIdea) (pid ptext paid pan pfid : String) (pnow : Nat) :
    (getIdea s ideaId = none →
      postCommentRoute s ideaId text freshId now = .error (.notFound "Idea not found")) ∧
    ((getIdea s ideaId).isSome →
      ∃ s' cm, postCommentRoute s ideaId text freshId now = .ok (s', cm) ∧
        cm.text = text ∧ listComments s' ideaId = listComments s ideaId ++ [cm]) ∧
    ((pideas.find? (fun i => i.id == pid)).isSome → jsTrim ptext = "" →
      postCommentPatched pideas pid ptext paid pan pfid pnow
        = .error (.badRequest "text required")) ∧
    (pideas.find? (fun i => i.id == pid) = none →
      postCommentPatched pideas pid ptext paid pan pfid pnow
        = .error (.notFound "not found")) := by
  refine ⟨?_, ?_, ?_, ?_⟩
  · intro h
    unfold postCommentRoute
    rw [h]
  · intro h
    obtain ⟨i, hi⟩ := Option.isSome_iff_exists.mp h
    unfold postCommentRoute
    rw [hi]
    refine ⟨_, _, rfl, rfl, ?_⟩
    show listComments (addComment s ideaId text "You" freshId now).1 ideaId
      = listComments s ideaId ++ [(addComment s ideaId text "You" freshId now).2]
    unfold listComments addComment
    simp only []
    rw [lookupEntry_setEntry_self]
    simp [listComments]
  · intro h1 h2
    obtain ⟨i, hi⟩ := Option.isSome_iff_exists.mp h1
    unfold postCommentPatched
    rw [hi]
    simp [h2]
  · intro h
    unfold postCommentPatched
    rw [h]

/-- Witness for the amended C4 theorem: NotFound on an absent idea in the
README server, and the patched server's blank-text rejection. -/
theorem add_comment_amended_witness :
    postCommentRoute ⟨[], [], []⟩ "zzz" "hello" "cm_9" 1
      = .error (.notFound "Idea not found") ∧
    postCommentPatched [c4pIdea] "a" "  " "u" "n" "cm_9" 2
      = .error (.badRequest "text required") :=
  ⟨(add_comment_amended ⟨[], [], []⟩ "zzz" "hello" "cm_9" 1 [c4pIdea] "a" "  " "u" "n"
      "cm_9" 2).1 (by decide),
   (add_comment_amended ⟨[], [], []⟩ "zzz" "hello" "cm_9" 1 [c4pIdea] "a" "  " "u" "n"
      "cm_9" 2).2.2.1 (by decide) (by decide)⟩

/-! ### C5: title validation on create -/

/-- C5 counterexample.  The claim says `createIdea` fails with
ValidationError (adding nothing to the store) whenever the required title
is missing or empty after trimming; but the README server's create path
has no title check at all: creating with `title := ""` succeeds and stores
an idea with an empty title. -/
theorem create_idea_accepts_empty_title :
    jsTrim c5body.title = "" ∧
    (createIdea ⟨[], [], []⟩ c5body "idea_1" 3).1.ideas
      = [(createIdea ⟨[], [], []⟩ c5body "idea_1" 3).2] ∧
    (createIdea ⟨[], [], []⟩ c5body "idea_1" 3).2.title = "" := by
  refine ⟨by decide, by rfl, by rfl⟩

/-- C5 amended.  The trimmed-title ValidationError exists in the
`server.js` variant, whose create route rejects a missing or
empty-after-trim title with 400 and inserts nothing; the README server's
create performs no title validation and accepts any title.  On success a
fresh ID is assigned, `createdAt`/`updatedAt` are stamped, and like and
comment counts are initialized to zero (README server; `server.js` rows
carry no counts). -/
theorem create_idea_amended (rows : List SJIdea)
    (title symbol levelText tak ty freshId : String) (now : Nat)
    (s : ServerState) (b : CreateBody) (cid : String) (cnow : Nat) :
    (jsTrim title = "" → createIdeaSJ rows title symbol levelText tak ty freshId now
        = .error (.badRequest "title is required")) ∧
    (jsTrim title ≠ "" → ∃ row, createIdeaSJ rows title symbol levelText tak ty freshId now
        = .ok (rows ++ [row], row) ∧ row.id = freshId ∧ row.createdAt = now ∧
        row.title = jsTrim title) ∧
    ((createIdea s b cid cnow).2.id = cid ∧
     (createIdea s b cid cnow).2.createdAt = cnow ∧
     (createIdea s b cid cnow).2.updatedAt = cnow ∧
     (createIdea s b cid cnow).2.likeCount = 0 ∧
     (createIdea s b cid cnow).2.commentCount = 0 ∧
     (createIdea s b cid cnow).1.ideas = s.ideas ++ [(createIdea s b cid cnow).2]) := by
  refine ⟨?_, ?_, rfl, rfl, rfl, rfl, rfl, rfl⟩
  · intro h
    simp [createIdeaSJ, h]
  · intro h
    refine ⟨{ id := freshId, type := if jsTrim ty = "" then "post" else jsTrim ty,
              title := jsTrim title, symbol := (jsTrim symbol).toUpper,
              levelText := jsTrim levelText, take := jsTrim tak,
              imageUrl := none, createdAt := now }, ?_, rfl, rfl, rfl⟩
    simp [createIdeaSJ, h]

/-- Witness for the amended C5 theorem: a whitespace-only title is
rejected by the `server.js` create, a real title is inserted. -/
theorem create_idea_amended_witness :
    createIdeaSJ [] "  " "" "" "" "" "sj1" 1 = .error (.badRequest "title is required") ∧
    (∃ row, createIdeaSJ [] "Hi" "" "" "" "" "sj2" 2 = .ok ([] ++ [row], row) ∧
      row.id = "sj2" ∧ row.createdAt = 2 ∧ row.title = jsTrim "Hi") :=
  ⟨(create_idea_amended [] "  " "" "" "" "" "sj1" 1 ⟨[], [], []⟩ c5body "c" 0).1 (by decide),
   (create_idea_amended [] "Hi" "" "" "" "" "sj2" 2 ⟨[], [], []⟩ c5body "c" 0).2.1 (by decide)⟩

/-! ### C8: the identity resolver -/

/-- C8.  `tokenKey` is a pure function of the request context: equal
credential, origin and client-signature inputs yield equal WhoKeys; every
request carrying a valid owner credential (a configured `API_TOKEN`
matched by the bearer token) yields the fixed privileged key `"owner"`;
and on the public path the key is the abstract one-way hash (`sha1`,
passed in as `sha1hex`) of the `ip ++ "|" ++ ua` caller fingerprint,
truncated to 12 hex characters behind the `"pub_"` prefix, so its length
is bounded by 16. -/
theorem tokenKey_spec (sha1hex : String → String) (apiToken : String) (publicLikes : Bool)
    (bearer ip ua bearer' ip' ua' : String)
    (hb : bearer = bearer') (hip : ip = ip') (hua : ua = ua') :
    tokenKey sha1hex apiToken publicLikes bearer ip ua
      = tokenKey sha1hex apiToken publicLikes bearer' ip' ua' ∧
    (apiToken ≠ "" → bearer = apiToken →
      tokenKey sha1hex apiToken publicLikes bearer ip ua = "owner") ∧
    (¬(isAuthed apiToken bearer = true ∧ apiToken ≠ "") → publicLikes = true →
      tokenKey sha1hex apiToken publicLikes bearer ip ua
        = "pub_" ++ (sha1hex (ip ++ "|" ++ ua)).take 12 ∧
      (tokenKey sha1hex apiToken publicLikes bearer ip ua).length ≤ 16) := by
  subst hb hip hua
  refine ⟨rfl, ?_, ?_⟩
  · intro ht hbe
    unfold tokenKey
    rw [if_pos]
    simp [isAuthed, hbe, ht]
  · intro hno hpl
    have hcond : (isAuthed apiToken bearer && !(apiToken == "")) = false := by
      by_cases ha : isAuthed apiToken bearer
      · by_cases ht : apiToken = ""
        · simp [ht]
        · exact absurd ⟨ha, ht⟩ hno
      · simp [ha]
    have hkey : tokenKey sha1hex apiToken publicLikes bearer ip ua
        = "pub_" ++ (sha1hex (ip ++ "|" ++ ua)).take 12 := by
      unfold tokenKey
      rw [hcond]
      simp [hpl]
    refine ⟨hkey, ?_⟩
    rw [hkey, String.length_append]
    have h4 : ("pub_" : String).length = 4 := rfl
    have h12 : ((sha1hex (ip ++ "|" ++ ua)).take 12).length ≤ 12 := by
      rw [String.take_eq]
      show ((sha1hex (ip ++ "|" ++ ua)).data.take 12).length ≤ 12
      simp [List.length_take]
    omega

/-- Witness for C8: the owner collapse and the public fingerprint key at
concrete inputs. -/
theorem tokenKey_spec_witness :
    tokenKey (fun x => x) "tok" true "tok" "ip" "ua" = "owner" ∧
    (tokenKey (fun x => x) "tok" true "bad" "ip" "ua"
        = "pub_" ++ (("ip" ++ "|" ++ "ua" : String)).take 12 ∧
      (tokenKey (fun x => x) "tok" true "bad" "ip" "ua").length ≤ 16) :=
  ⟨(tokenKey_spec (fun x => x) "tok" true "tok" "ip" "ua" "tok" "ip" "ua"
      rfl rfl rfl).2.1 (by decide) rfl,
   (tokenKey_spec (fun x => x) "tok" true "bad" "ip" "ua" "bad" "ip" "ua"
      rfl rfl rfl).2.2 (by decide) rfl⟩

/-! ### C9: broadcast fan-out and subscriber write failures -/

/-- C9 (code bug).  The README server's `broadcastIdeas` wraps each
subscriber send in `try ... catch` and therefore never fails, matching the
claim; but `server.cjs`'s `sseBroadcast` (lines 257-260) writes with no
per-subscriber error handling, so on `PUT /ideas/:id/likes` with one dead
subscriber the store is mutated (likes go 0 → 1) while the caller receives
an error instead of the success payload — the exception from the fan-out
propagates to the mutation path, contradicting the claim (and the spec's
own §5 requirement, which every sibling fan-out loop in the repository
satisfies). -/
theorem sse_broadcast_failure_propagates :
    (∀ writeFails clients, broadcastIdeas writeFails clients = .ok ()) ∧
    (putLikesC (fun _ => true) [0]
        [{ id := "a", title := "t", content := "c", symbol := "", tf := "",
           likes := 0, createdAt := 0, updatedAt := 0 }] "a" 1 5).1.map CIdea.likes
      = [1] ∧
    (putLikesC (fun _ => true) [0]
        [{ id := "a", title := "t", content := "c", symbol := "", tf := "",
           likes := 0, createdAt := 0, updatedAt := 0 }] "a" 1 5).2.isOk = false := by
  refine ⟨?_, by rfl, by rfl⟩
  intro writeFails clients
  induction clients with
  | nil => rfl
  | cons c rest ih =>
      by_cases h : writeFails c <;>
        simpa [broadcastIdeas, List.foldlM, sseWrite, h] using ih

/-! ### C10: the latest-idea route -/

/-- C10.  When the idea store is empty, `latestIdea` returns the empty
no-content result (`none`, served as HTTP 204); when non-empty it returns
an idea of the store whose `createdAt` is greatest. -/
theorem latest_idea_spec (s : ServerState) (hne : s.ideas ≠ []) :
    (∀ t : ServerState, t.ideas = [] → latestIdea t = none) ∧
    ∃ i, latestIdea s = some i ∧ i ∈ s.ideas ∧
      ∀ j ∈ s.ideas, j.createdAt ≤ i.createdAt := by
  constructor
  · intro t ht
    unfold latestIdea
    rw [if_pos (by simpa [List.isEmpty_iff] using ht)]
  · have hperm := List.mergeSort_perm s.ideas
      (fun a b : Idea => decide (b.createdAt ≤ a.createdAt))
    have hsorted := @List.sorted_mergeSort Idea
      (fun a b : Idea => decide (b.createdAt ≤ a.createdAt))
      (fun a b c hab hbc => by
        simp only [decide_eq_true_eq] at hab hbc ⊢
        omega)
      (fun a b => by
        simp only [Bool.or_eq_true, decide_eq_true_eq]
        omega)
      s.ideas
    obtain ⟨i, rest, hcons⟩ :
        ∃ i rest, s.ideas.mergeSort (fun a b : Idea => decide (b.createdAt ≤ a.createdAt))
          = i :: rest := by
      cases hms : s.ideas.mergeSort (fun a b : Idea => decide (b.createdAt ≤ a.createdAt)) with
      | nil =>
          rw [hms] at hperm
          exact absurd (hperm.symm.eq_nil) hne
      | cons i rest => exact ⟨i, rest, rfl⟩
    refine ⟨i, ?_, ?_, ?_⟩
    · unfold latestIdea
      rw [if_neg (by simpa [List.isEmpty_iff] using hne), hcons]
      rfl
    · exact hperm.mem_iff.mp (hcons ▸ List.mem_cons_self i rest)
    · intro j hj
      have hj' : j ∈ i :: rest := hcons ▸ hperm.mem_iff.mpr hj
      rcases List.mem_cons.mp hj' with hj' | hj'
      · subst hj'; exact Nat.le_refl _
      · have hp := (List.pairwise_cons.mp (hcons ▸ hsorted)).1 j hj'
        simpa [decide_eq_true_eq] using hp

/-- Witness for C10 at a concrete three-idea store. -/
theorem latest_idea_spec_witness :
    (∀ t : ServerState, t.ideas = [] → latestIdea t = none) ∧
    ∃ i, latestIdea c10state = some i ∧ i ∈ c10state.ideas ∧
      ∀ j ∈ c10state.ideas, j.createdAt ≤ i.createdAt :=
  latest_idea_spec c10state (by decide)

end IdeasBackend
